import Mathlib

/-!
Shallow embedding of `watertap/core/membrane_channel1d.py`
(`MembraneChannel1DBlockData`): the 1-D discretized membrane channel
builder.  Pure data (length domains, scaling-factor registries, aliasing
state) is modelled explicitly; the Pyomo/IDAES collaborators are modelled
from the specification where their behavior decides a claim, and each such
definition says so in its doc comment.

Numbers are rationals: the claims here are structural (counts, membership,
registry updates), not about float rounding.
-/

namespace MembraneChannel1D

/-- Errors surfaced by the channel builder.  `configurationError` is IDAES
`ConfigurationError`; `attributeError` is Python `AttributeError`. -/
inductive ChannelError where
  | configurationError
  | attributeError
deriving DecidableEq, Repr

/-! ## Scaling-factor pass (`calculate_scaling_factors`, source lines 197-217)

The scaling registry is keyed by variable identity; we keep, per variable
group the method touches, its registry entries in order.  `none` means "no
scaling factor set".  `hasattr(self, "pressure_change_total")`,
`hasattr(self, "dP_dx")` and the (unguarded) existence of `pressure_dx`
are modelled by `Option`/`Bool` presence fields.  The state is the state
after `super().calculate_scaling_factors()` (the base control volume's own
pass, which runs first and which the claims quantify over). -/

structure ScaleState where
  /-- registry entry for `self.area`; the base class defaults it to 1. -/
  area : Option ℚ
  /-- `self.pressure_change_total`, when constructed: its entries' registry values. -/
  pressure_change_total : Option (List (Option ℚ))
  /-- whether the `dP_dx` alias attribute exists on the block. -/
  has_dP_dx : Bool
  /-- `self.pressure_dx`, when constructed: its entries' registry values. -/
  pressure_dx : Option (List (Option ℚ))
deriving DecidableEq, Repr

/-- Lines 204-205: `if iscale.get_scaling_factor(self.area) == 1:
iscale.set_scaling_factor(self.area, 100)`. -/
def scale_area_step (s : ScaleState) : ScaleState :=
  if s.area = some 1 then { s with area := some 100 } else s

/-- Lines 207-210: the `hasattr(self, "pressure_change_total")`-guarded
loop setting 1e-4 on each entry whose factor is unset. -/
def scale_pct_step (s : ScaleState) : ScaleState :=
  match s.pressure_change_total with
  | none => s
  | some l =>
      let l' := l.map (fun sf => if sf = none then some (1 / 10000) else sf)
      { s with pressure_change_total := some l' }

/-- Lines 212-217: the `hasattr(self, "dP_dx")` branch; both branches loop
over `self.pressure_dx.values()` unconditionally, so a missing
`pressure_dx` attribute is an `AttributeError`. -/
def scale_pdx_step (s : ScaleState) : Except ChannelError ScaleState :=
  match s.pressure_dx with
  | none => .error .attributeError
  | some l =>
      if s.has_dP_dx then
        .ok { s with pressure_dx := some (l.map (fun _ => some (1 / 100000))) }
      else
        .ok { s with pressure_dx := some (l.map (fun _ => some 100000)) }

/-- Source `calculate_scaling_factors` of `MembraneChannel1DBlockData`, lines
197-217, acting on the registry state left by the base pass: the three
statement groups of the body, in source order. -/
def calculate_scaling_factors (s : ScaleState) : Except ChannelError ScaleState :=
  scale_pdx_step (scale_pct_step (scale_area_step s))

/-! ## Configuration (`CONFIG_Template`, source lines 40-97)

`finite_elements` and `collocation_points` are declared with `domain=int`
(plain integer coercion, default 20 and 5); `transformation_method` and
`transformation_scheme` are plain `ConfigValue`s with no domain;
`area_definition` has `domain=In(DistributedVars)`. -/

/-- The `DistributedVars` enum from IDAES, the domain of `area_definition`. -/
inductive DistributedVars where
  | uniform
  | variant
deriving DecidableEq, Repr

/-- The discretization methods IDAES' 1-D control volume recognizes
(`"dae.finite_difference"` / `"dae.collocation"`); any other string is an
unsupported method. -/
inductive TransformationMethod where
  | finite_difference
  | collocation
  | other
deriving DecidableEq, Repr

/-- Pyomo DAE discretization schemes named by the spec's finite set of
supported combinations. -/
inductive TransformationScheme where
  | BACKWARD
  | FORWARD
  | LAGRANGE_RADAU
  | LAGRANGE_LEGENDRE
deriving DecidableEq, Repr

structure Config where
  area_definition : DistributedVars
  transformation_method : TransformationMethod
  transformation_scheme : TransformationScheme
  finite_elements : ℤ
  collocation_points : ℤ
deriving DecidableEq, Repr

/-- Configuration validation as declared by `CONFIG_Template` (lines 40-97):
`area_definition` is checked by `In(DistributedVars)` (always satisfied by a
well-typed value), `transformation_method`/`transformation_scheme` carry no
domain at all, and `finite_elements`/`collocation_points` have `domain=int`,
which coerces with `int(...)` and accepts every integer — the template
declares no positivity check. -/
def validate_config (c : Config) : Except ChannelError Config :=
  .ok c

/-! ## Domain transformation (`apply_transformation`, source lines 102-113) -/

/-- Modelled from the spec: the (method, scheme) pairs accepted by the
external discretization backend — finite differences with BACKWARD/FORWARD,
collocation with LAGRANGE-RADAU/LAGRANGE-LEGENDRE; everything else is an
unsupported combination. -/
def supported_pair : TransformationMethod → TransformationScheme → Bool
  | .finite_difference, .BACKWARD => true
  | .finite_difference, .FORWARD => true
  | .collocation, .LAGRANGE_RADAU => true
  | .collocation, .LAGRANGE_LEGENDRE => true
  | _, _ => false

/-- The uniform grid `0, 1/n, ..., n/n` over `[0, 1]`. -/
def uniformGrid (n : ℕ) : List ℚ :=
  (List.range (n + 1)).map (fun i : ℕ => (i : ℚ) / (n : ℚ))

/-- Modelled from the spec: `super().apply_transformation` — the base control
volume's transformation, which fails with `ConfigurationError` for an
unsupported (method, scheme) pair and for a non-positive element/point
count ("fails with `ConfigurationError` if the method/scheme pair is
unsupported, or if either integer parameter is non-positive"; "failures
propagate as configuration errors"), and otherwise discretizes the length
domain into an ordered point set over `[0, 1]` containing 0 and 1 whose
cardinality is a deterministic function of the integer parameters.  Point
positions are modelled as a uniform grid; no claim depends on positions,
only on order, distinctness and boundary membership. -/
def super_apply_transformation (c : Config) : Except ChannelError (List ℚ) :=
  if ¬ supported_pair c.transformation_method c.transformation_scheme then
    .error .configurationError
  else if c.finite_elements < 1 then
    .error .configurationError
  else if c.transformation_method = .collocation ∧ c.collocation_points < 1 then
    .error .configurationError
  else
    match c.transformation_method with
    | .collocation => .ok (uniformGrid (c.finite_elements.toNat * c.collocation_points.toNat))
    | _ => .ok (uniformGrid c.finite_elements.toNat)

/-- First element (`.first()`) of a Pyomo ordered set, modelled on the sorted point list. -/
def listFirst (d : List ℚ) : ℚ :=
  d.head?.getD 0

/-- The channel block's discretization-related attributes.  `length_domain`
is the ordered point list; `first_element`, `difference_elements` and `nfe`
are the attributes `apply_transformation` sets; `has_interface_stateblock`
records whether `_add_interface_stateblock` ran. -/
structure Channel1D where
  length_domain : List ℚ
  first_element : ℚ
  difference_elements : List ℚ
  nfe : ℕ
  has_interface_stateblock : Bool
deriving DecidableEq, Repr

/-- Source `apply_transformation` (lines 102-113): runs the base transformation,
then sets `first_element = length_domain.first()`,
`difference_elements = Set(ordered=True, initialize=(x for x in length_domain if x != first_element))`
and `nfe = Param(initialize=len(difference_elements))`. -/
def apply_transformation (c : Config) (s : Channel1D) : Except ChannelError Channel1D :=
  match super_apply_transformation c with
  | .error e => .error e
  | .ok dom =>
      let fe := listFirst dom
      let diff := dom.filter (fun x => x ≠ fe)
      .ok { s with length_domain := dom, first_element := fe,
                   difference_elements := diff, nfe := diff.length }

/-- The `FlowDirection` enum from IDAES. -/
inductive FlowDirection where
  | forward
  | backward
deriving DecidableEq, Repr

/-- Source `add_state_blocks` (lines 148-169): delegates to the base control volume
(state-block construction, which does not touch the length domain), then
re-reads `first_element = length_domain.first()` and attaches the interface
state block. -/
def add_state_blocks (information_flow : FlowDirection) (has_phase_equilibrium : Bool)
    (s : Channel1D) : Channel1D :=
  { s with first_element := listFirst s.length_domain, has_interface_stateblock := true }

/-! ## Isothermal conditions (`add_isothermal_conditions`, source lines 175-192) -/

/-- One generated feed-side isothermal equality constraint:
`properties[t, xref].temperature == properties[t, x].temperature`,
where `xref` is the domain's first element. -/
structure IsoCon where
  t : ℚ
  x : ℚ
  xref : ℚ
deriving DecidableEq, Repr

/-- The rule body of `eq_feed_isothermal` (lines 186-192): at `(t, x)` it
returns `Constraint.Skip` when `x == length_domain.first()`, otherwise the
temperature-equality constraint against the first element. -/
def eq_feed_isothermal_rule (dom : List ℚ) (t x : ℚ) : Option IsoCon :=
  if x = listFirst dom then none
  else some ⟨t, x, listFirst dom⟩

/-- Source `add_isothermal_conditions` (lines 175-192): the `@self.Constraint`
decorator evaluates the rule at every `(t, x)` in
`flowsheet().config.time × length_domain`, keeping the non-skipped
constraints in index order. -/
def add_isothermal_conditions (time dom : List ℚ) : List IsoCon :=
  time.flatMap (fun t => dom.filterMap (fun x => eq_feed_isothermal_rule dom t x))

/-! ## Pressure-change alias (`_add_pressure_change`, source lines 194-195) -/

/-- The `PressureChangeType` enum from the membrane channel base. -/
inductive PressureChangeType where
  | fixed_per_stage
  | fixed_per_unit_length
  | calculated
deriving DecidableEq, Repr

/-- The block state `_add_pressure_change` acts on: an underlying variable
store addressed by identity, the id of the control volume's existing
`deltaP` variable, the set of allocated variable ids, the constraint list,
and the `dP_dx` attribute slot (an object reference, i.e. a variable id). -/
structure PChannelState where
  store : ℕ → ℚ
  deltaP : ℕ
  var_ids : List ℕ
  constraints : List IsoCon
  dP_dx : Option ℕ

/-- Source `_add_pressure_change` (lines 194-195):
`add_object_reference(self, "dP_dx", self.deltaP)` — binds the attribute
name `dP_dx` to the existing `deltaP` variable's identity, for every
`pressure_change_type`; nothing else is created. -/
def add_pressure_change (pressure_change_type : PressureChangeType)
    (s : PChannelState) : PChannelState :=
  { s with dP_dx := some s.deltaP }

/-- Write value `v` through the `dP_dx` reference (a no-op when the
attribute is absent). -/
def write_dP_dx (s : PChannelState) (v : ℚ) : PChannelState :=
  match s.dP_dx with
  | none => s
  | some i => { s with store := fun j => if j = i then v else s.store j }

/-- Read the control volume's `deltaP` variable from the store. -/
def read_deltaP (s : PChannelState) : ℚ :=
  s.store s.deltaP

/-! ## Enthalpy balances (`add_total_enthalpy_balances`, source lines 171-173) -/

/-- A minimal model view for the enthalpy-balance override: variable count
and constraint list, from which degrees of freedom are derived. -/
structure ModelState where
  num_vars : ℕ
  constraints : List IsoCon
deriving DecidableEq, Repr

def degrees_of_freedom (m : ModelState) : ℤ :=
  (m.num_vars : ℤ) - m.constraints.length

/-- Source `add_total_enthalpy_balances` (lines 171-173): `return None` — a
deliberate no-op override for the 1-D membrane channel. -/
def add_total_enthalpy_balances (m : ModelState) : ModelState × Option IsoCon :=
  (m, none)

/-! ## Concrete sample inputs used by the witness theorems -/

/-- Sample configuration: backward finite differences over one element. -/
def sampleConfig : Config :=
  ⟨.uniform, .finite_difference, .BACKWARD, 1, 5⟩

/-- Sample configuration with an unsupported (method, scheme) pair. -/
def badPairConfig : Config :=
  ⟨.uniform, .collocation, .BACKWARD, 20, 5⟩

/-- Sample configuration with `finite_elements = 0`. -/
def zeroFEConfig : Config :=
  ⟨.uniform, .finite_difference, .BACKWARD, 0, 5⟩

/-- Sample configuration with a negative `finite_elements`. -/
def negFEConfig : Config :=
  ⟨.uniform, .finite_difference, .FORWARD, -3, 5⟩

/-- A fresh channel block state, before any transformation. -/
def ch0 : Channel1D :=
  ⟨[], 0, [], 0, false⟩

/-- The block state produced by transforming `ch0` under `sampleConfig`. -/
def ch1 : Channel1D :=
  ⟨[0, 1], 0, [1], 1, false⟩

/-- Post-base-pass registry state: default area factor, one unset and one
user-set `pressure_change_total` entry, `dP_dx` alias present, two
`pressure_dx` entries. -/
def sc0 : ScaleState :=
  ⟨some 1, some [none, some 2], true, some [none, some 7]⟩

/-- The registry state one scaling pass over `sc0` produces. -/
def sc1 : ScaleState :=
  ⟨some 100, some [some (1 / 10000), some 2], true,
    some [some (1 / 100000), some (1 / 100000)]⟩

/-- Registry state with a user-set area factor and no `dP_dx` alias. -/
def sc2 : ScaleState :=
  ⟨some 5, some [some 2], false, some [none]⟩

/-- The registry state one scaling pass over `sc2` produces. -/
def sc3 : ScaleState :=
  ⟨some 5, some [some 2], false, some [some 100000]⟩

/-- Registry state on which `pressure_dx` was never constructed. -/
def scNoPdx : ScaleState :=
  ⟨some 1, some [none], true, none⟩

/-! ## Helper lemmas on the uniform grid and the transformed state -/

theorem uniformGrid_ne_nil (n : ℕ) : uniformGrid n ≠ [] := by
  simp [uniformGrid, List.range_succ_eq_map]

theorem listFirst_uniformGrid (n : ℕ) : listFirst (uniformGrid n) = 0 := by
  simp [uniformGrid, listFirst, List.range_succ_eq_map]

theorem zero_mem_uniformGrid (n : ℕ) : (0 : ℚ) ∈ uniformGrid n := by
  unfold uniformGrid
  apply List.mem_map.mpr
  exact ⟨0, List.mem_range.mpr n.succ_pos, by simp⟩

theorem one_mem_uniformGrid {n : ℕ} (hn : n ≠ 0) : (1 : ℚ) ∈ uniformGrid n := by
  simp only [uniformGrid, List.mem_map]
  refine ⟨n, by simp [List.mem_range], ?_⟩
  exact div_self (by exact_mod_cast hn)

theorem uniformGrid_nonneg {n : ℕ} : ∀ y ∈ uniformGrid n, (0 : ℚ) ≤ y := by
  intro y hy
  simp only [uniformGrid, List.mem_map] at hy
  obtain ⟨i, -, rfl⟩ := hy
  exact div_nonneg (Nat.cast_nonneg i) (Nat.cast_nonneg n)

theorem uniformGrid_nodup {n : ℕ} (hn : n ≠ 0) : (uniformGrid n).Nodup := by
  have hn' : (n : ℚ) ≠ 0 := by exact_mod_cast hn
  unfold uniformGrid
  apply List.Nodup.map
  · intro i j hij
    simp only at hij
    have : (i : ℚ) = (j : ℚ) := by
      field_simp at hij
      exact_mod_cast hij
    exact_mod_cast this
  · exact List.nodup_range _

theorem super_apply_transformation_ok {c : Config} {dom : List ℚ}
    (h : super_apply_transformation c = .ok dom) :
    ∃ m : ℕ, m ≠ 0 ∧ dom = uniformGrid m := by
  unfold super_apply_transformation at h
  by_cases h1 : supported_pair c.transformation_method c.transformation_scheme
  · rw [if_neg (by simpa using h1)] at h
    by_cases h2 : c.finite_elements < 1
    · simp [h2] at h
    · rw [if_neg h2] at h
      by_cases h3 : c.transformation_method = .collocation ∧ c.collocation_points < 1
      · simp [h3] at h
      · rw [if_neg h3] at h
        have hfe : c.finite_elements.toNat ≠ 0 := by omega
        cases hm : c.transformation_method with
        | collocation =>
            rw [hm] at h
            simp only [Except.ok.injEq] at h
            refine ⟨c.finite_elements.toNat * c.collocation_points.toNat, ?_, h.symm⟩
            have hcp : c.collocation_points.toNat ≠ 0 := by
              rw [hm] at h3
              simp only [true_and] at h3
              omega
            positivity
        | finite_difference =>
            rw [hm] at h
            simp only [Except.ok.injEq] at h
            exact ⟨c.finite_elements.toNat, hfe, h.symm⟩
        | other =>
            rw [hm] at h
            simp only [Except.ok.injEq] at h
            exact ⟨c.finite_elements.toNat, hfe, h.symm⟩
  · rw [if_pos (by simpa using h1)] at h
    exact absurd h (by simp)

theorem apply_transformation_ok {c : Config} {s s' : Channel1D}
    (h : apply_transformation c s = .ok s') :
    ∃ m : ℕ, m ≠ 0 ∧
      s' = { s with
              length_domain := uniformGrid m,
              first_element := listFirst (uniformGrid m),
              difference_elements :=
                (uniformGrid m).filter (fun x => x ≠ listFirst (uniformGrid m)),
              nfe :=
                ((uniformGrid m).filter (fun x => x ≠ listFirst (uniformGrid m))).length } := by
  cases hsup : super_apply_transformation c with
  | error e =>
      unfold apply_transformation at h
      rw [hsup] at h
      exact absurd h (by simp)
  | ok dom =>
      obtain ⟨m, hm, rfl⟩ := super_apply_transformation_ok hsup
      unfold apply_transformation at h
      rw [hsup] at h
      simp only [Except.ok.injEq] at h
      exact ⟨m, hm, h.symm⟩

theorem listFirst_mem {d : List ℚ} (h : d ≠ []) : listFirst d ∈ d := by
  cases d with
  | nil => exact absurd rfl h
  | cons a l => exact List.mem_cons_self a l

theorem filter_ne_eq_erase {l : List ℚ} (hl : l.Nodup) (a : ℚ) :
    l.filter (fun x => x ≠ a) = l.erase a := by
  rw [hl.erase_eq_filter]
  apply List.filter_congr
  intro x _
  by_cases hx : x = a <;> simp [hx]

theorem eq_feed_isothermal_rule_eq_some {dom : List ℚ} {t x : ℚ} {con : IsoCon} :
    eq_feed_isothermal_rule dom t x = some con ↔
      x ≠ listFirst dom ∧ con = ⟨t, x, listFirst dom⟩ := by
  unfold eq_feed_isothermal_rule
  split <;> simp_all [eq_comm]

theorem filterMap_rule_length_aux (fe t : ℚ) (l : List ℚ) :
    (l.filterMap (fun x => if x = fe then none else some (⟨t, x, fe⟩ : IsoCon))).length
      = (l.filter (fun x => x ≠ fe)).length := by
  induction l with
  | nil => simp
  | cons a l ih =>
      by_cases ha : a = fe <;> simp [List.filterMap_cons, ha, ih]

theorem filterMap_rule_length {dom : List ℚ} (hne : dom ≠ []) (hnd : dom.Nodup) (t : ℚ) :
    (dom.filterMap (eq_feed_isothermal_rule dom t)).length = dom.length - 1 := by
  have h1 : dom.filterMap (eq_feed_isothermal_rule dom t)
      = dom.filterMap
          (fun x => if x = listFirst dom then none else some (⟨t, x, listFirst dom⟩ : IsoCon)) :=
    rfl
  rw [h1, filterMap_rule_length_aux, filter_ne_eq_erase hnd,
    List.length_erase_of_mem (listFirst_mem hne)]

/-! ## Helper lemmas on the scaling steps -/

theorem scale_area_step_area (s : ScaleState) :
    (scale_area_step s).area = if s.area = some 1 then some 100 else s.area := by
  unfold scale_area_step
  split <;> rfl

theorem scale_area_step_rest (s : ScaleState) :
    (scale_area_step s).pressure_change_total = s.pressure_change_total ∧
    (scale_area_step s).has_dP_dx = s.has_dP_dx ∧
    (scale_area_step s).pressure_dx = s.pressure_dx := by
  unfold scale_area_step
  split <;> exact ⟨rfl, rfl, rfl⟩

theorem scale_pct_step_pct (s : ScaleState) :
    (scale_pct_step s).pressure_change_total
      = s.pressure_change_total.map
          (fun l => l.map (fun sf => if sf = none then some (1 / 10000) else sf)) := by
  unfold scale_pct_step
  cases h : s.pressure_change_total <;> simp [h]

theorem scale_pct_step_rest (s : ScaleState) :
    (scale_pct_step s).area = s.area ∧
    (scale_pct_step s).has_dP_dx = s.has_dP_dx ∧
    (scale_pct_step s).pressure_dx = s.pressure_dx := by
  unfold scale_pct_step
  cases h : s.pressure_change_total <;> exact ⟨rfl, rfl, rfl⟩

theorem scale_pdx_step_none {s : ScaleState} (h : s.pressure_dx = none) :
    scale_pdx_step s = .error .attributeError := by
  unfold scale_pdx_step
  rw [h]

theorem scale_pdx_step_some {s : ScaleState} {l : List (Option ℚ)}
    (h : s.pressure_dx = some l) :
    scale_pdx_step s
      = .ok { s with pressure_dx := some (l.map (fun _ => if s.has_dP_dx then some (1 / 100000) else some 100000)) } := by
  unfold scale_pdx_step
  rw [h]
  cases hdp : s.has_dP_dx <;> simp_all

theorem scale_pdx_step_ok {s s' : ScaleState} (h : scale_pdx_step s = .ok s') :
    s'.area = s.area ∧
    s'.pressure_change_total = s.pressure_change_total ∧
    s'.has_dP_dx = s.has_dP_dx ∧
    s'.pressure_dx
      = s.pressure_dx.map
          (fun l => l.map (fun _ =>
            if s.has_dP_dx then some (1 / 100000) else some (100000 : ℚ))) := by
  cases hp : s.pressure_dx with
  | none => rw [scale_pdx_step_none hp] at h; exact absurd h (by simp)
  | some l =>
      rw [scale_pdx_step_some hp] at h
      simp only [Except.ok.injEq] at h
      subst h
      exact ⟨rfl, rfl, rfl, rfl⟩

/-- Normal form of a successful `calculate_scaling_factors` call: how each
registry group of the result relates to the input state. -/
theorem calculate_scaling_factors_eq {s s' : ScaleState}
    (h : calculate_scaling_factors s = .ok s') :
    s'.area = (if s.area = some 1 then some 100 else s.area) ∧
    s'.pressure_change_total
      = s.pressure_change_total.map
          (fun l => l.map (fun sf => if sf = none then some (1 / 10000) else sf)) ∧
    s'.has_dP_dx = s.has_dP_dx ∧
    s'.pressure_dx
      = s.pressure_dx.map
          (fun l => l.map (fun _ =>
            if s.has_dP_dx then some (1 / 100000) else some (100000 : ℚ))) := by
  unfold calculate_scaling_factors at h
  obtain ⟨ha, hpct, hdp, hpdx⟩ := scale_pdx_step_ok h
  obtain ⟨h1, h2, h3⟩ := scale_pct_step_rest (scale_area_step s)
  obtain ⟨h4, h5, h6⟩ := scale_area_step_rest s
  refine ⟨?_, ?_, ?_, ?_⟩
  · rw [ha, h1, scale_area_step_area]
  · rw [hpct, scale_pct_step_pct, h4]
  · rw [hdp, h2, h5]
  · rw [hpdx, h3, h6, h2, h5]

theorem calculate_scaling_factors_error {s : ScaleState} (h : s.pressure_dx = none) :
    calculate_scaling_factors s = .error .attributeError := by
  unfold calculate_scaling_factors
  apply scale_pdx_step_none
  rw [(scale_pct_step_rest _).2.2, (scale_area_step_rest _).2.2]
  exact h

theorem pct_map_idem (l : List (Option ℚ)) :
    (l.map (fun sf => if sf = none then some ((1 : ℚ) / 10000) else sf)).map
        (fun sf => if sf = none then some ((1 : ℚ) / 10000) else sf)
      = l.map (fun sf => if sf = none then some ((1 : ℚ) / 10000) else sf) := by
  rw [List.map_map]
  apply List.map_congr_left
  intro sf _
  cases sf <;> simp

/-! ## Claim theorems -/

/-- C1: `add_isothermal_conditions` adds the constraint
`temperature(t, x) == temperature(t, first_element)` exactly for the pairs
`(t, x)` with `x` not the first (minimum) point of the length domain, and
the number of generated isothermal constraints equals
`|time points| * (|LengthDomain| - 1)`. -/
theorem add_isothermal_conditions_spec (time dom : List ℚ)
    (hne : dom ≠ []) (hnd : dom.Nodup) :
    (∀ t x r : ℚ, (⟨t, x, r⟩ : IsoCon) ∈ add_isothermal_conditions time dom ↔
        (t ∈ time ∧ x ∈ dom ∧ x ≠ listFirst dom ∧ r = listFirst dom)) ∧
    (add_isothermal_conditions time dom).length = time.length * (dom.length - 1) := by
  constructor
  · intro t x r
    simp only [add_isothermal_conditions, List.mem_flatMap, List.mem_filterMap,
      eq_feed_isothermal_rule_eq_some, IsoCon.mk.injEq]
    constructor
    · rintro ⟨t', ht', x', hx', hne', rfl, rfl, rfl⟩
      exact ⟨ht', hx', hne', rfl⟩
    · rintro ⟨ht, hx, hxne, rfl⟩
      exact ⟨t, ht, x, hx, hxne, rfl, rfl, rfl⟩
  · induction time with
    | nil => simp [add_isothermal_conditions]
    | cons t ts ih =>
        simp only [add_isothermal_conditions, List.flatMap_cons, List.length_append,
          List.length_cons] at ih ⊢
        rw [ih, filterMap_rule_length hne hnd t]
        ring

/-- C2: after a successful `apply_transformation`, the length domain
contains both boundary points 0 and 1, `difference_elements` is the length
domain with the first element removed preserving relative order, and `nfe`
equals `|difference_elements| = |LengthDomain| - 1`. -/
theorem apply_transformation_domain_complete (c : Config) (s s' : Channel1D)
    (h : apply_transformation c s = .ok s') :
    (0 : ℚ) ∈ s'.length_domain ∧ (1 : ℚ) ∈ s'.length_domain ∧
    s'.difference_elements = s'.length_domain.erase s'.first_element ∧
    s'.nfe = s'.difference_elements.length ∧
    s'.nfe = s'.length_domain.length - 1 := by
  obtain ⟨m, hm, rfl⟩ := apply_transformation_ok h
  refine ⟨zero_mem_uniformGrid m, one_mem_uniformGrid hm, ?_, rfl, ?_⟩
  · exact filter_ne_eq_erase (uniformGrid_nodup hm) _
  · show ((uniformGrid m).filter (fun x => x ≠ listFirst (uniformGrid m))).length
        = (uniformGrid m).length - 1
    rw [filter_ne_eq_erase (uniformGrid_nodup hm),
      List.length_erase_of_mem (listFirst_mem (uniformGrid_ne_nil m))]

/-- C3: a second `calculate_scaling_factors` call never changes an
already-set factor for the channel area or any `pressure_change_total`
entry, but unconditionally (re)sets every `pressure_dx` entry's factor to
1e-5 or 1e5 depending on `dP_dx` alias presence. -/
theorem calculate_scaling_factors_second_call (s s₁ s₂ : ScaleState)
    (h1 : calculate_scaling_factors s = .ok s₁)
    (h2 : calculate_scaling_factors s₁ = .ok s₂) :
    s₂.area = s₁.area ∧
    s₂.pressure_change_total = s₁.pressure_change_total ∧
    s₂.pressure_dx
      = s₁.pressure_dx.map
          (fun l => l.map (fun _ =>
            if s₁.has_dP_dx then some (1 / 100000) else some (100000 : ℚ))) := by
  obtain ⟨a1, p1, d1, x1⟩ := calculate_scaling_factors_eq h1
  obtain ⟨a2, p2, d2, x2⟩ := calculate_scaling_factors_eq h2
  refine ⟨?_, ?_, x2⟩
  · rw [a2]
    by_cases hs : s.area = some 1
    · rw [a1, if_pos hs]
      simp
    · rw [a1, if_neg hs, if_neg hs]
  · rw [p2, p1]
    cases s.pressure_change_total with
    | none => rfl
    | some l => exact congrArg some (pct_map_idem l)

/-- C4 (amended): configuration validation accepts every integer
`finite_elements` (the declared domain is plain `int`), so a zero or
negative value is not rejected during configuration validation, before any
grid is built; instead it fails with `ConfigurationError` inside
`apply_transformation` at construction time, as does an unsupported
(method, scheme) pair — neither is deferred to solve time. -/
theorem config_rejection_behavior (c : Config) (s : Channel1D) :
    validate_config c = .ok c ∧
    (supported_pair c.transformation_method c.transformation_scheme = false →
      apply_transformation c s = .error .configurationError) ∧
    (c.finite_elements ≤ 0 →
      apply_transformation c s = .error .configurationError) := by
  refine ⟨rfl, ?_, ?_⟩
  · intro hpair
    simp [apply_transformation, super_apply_transformation, hpair]
  · intro hfe
    have h1 : c.finite_elements < 1 := by omega
    by_cases hpair : supported_pair c.transformation_method c.transformation_scheme <;>
      simp [apply_transformation, super_apply_transformation, hpair, h1]

/-- C4 counterexample: contrary to the claim, constructing with
`finite_elements = 0` or a negative value passes configuration validation
(the declared domain is `int`, which accepts any integer), so no
`ConfigurationError` is raised during configuration validation. -/
theorem nonpositive_finite_elements_pass_validation :
    validate_config zeroFEConfig = .ok zeroFEConfig ∧
    validate_config negFEConfig = .ok negFEConfig :=
  ⟨rfl, rfl⟩

/-- C5: `calculate_scaling_factors` assigns every `pressure_dx` entry the
factor 1e-5 when the `dP_dx` alias exists and 1e5 when it does not. -/
theorem pressure_dx_factor_by_alias (s s' : ScaleState)
    (h : calculate_scaling_factors s = .ok s') :
    (s.has_dP_dx = true →
      s'.pressure_dx
        = s.pressure_dx.map (fun l => l.map (fun _ => some ((1 : ℚ) / 100000)))) ∧
    (s.has_dP_dx = false →
      s'.pressure_dx
        = s.pressure_dx.map (fun l => l.map (fun _ => some (100000 : ℚ)))) := by
  obtain ⟨-, -, -, hx⟩ := calculate_scaling_factors_eq h
  constructor <;> intro hdp <;> rw [hx] <;> simp [hdp]

/-- C6: `_add_pressure_change` binds `dP_dx` to the same underlying storage
as the control volume's `deltaP` for every `pressure_change_type` — a write
through the alias is read back through `deltaP` — and creates no new
variable and no new constraint. -/
theorem add_pressure_change_alias (pct : PressureChangeType) (s : PChannelState) (v : ℚ) :
    (add_pressure_change pct s).dP_dx = some s.deltaP ∧
    (add_pressure_change pct s).var_ids = s.var_ids ∧
    (add_pressure_change pct s).constraints = s.constraints ∧
    read_deltaP (write_dP_dx (add_pressure_change pct s) v) = v := by
  refine ⟨rfl, rfl, rfl, ?_⟩
  simp [add_pressure_change, write_dP_dx, read_deltaP]

/-- C7: the channel area's scaling factor is set to 100 exactly when its
current factor is 1 (the base-class default); any other pre-existing value
is left unchanged. -/
theorem area_factor_once (s s' : ScaleState)
    (h : calculate_scaling_factors s = .ok s') :
    (s.area = some 1 → s'.area = some 100) ∧
    (s.area ≠ some 1 → s'.area = s.area) := by
  obtain ⟨ha, -, -, -⟩ := calculate_scaling_factors_eq h
  constructor <;> intro hs <;> rw [ha] <;> simp [hs]

/-- C8: `add_total_enthalpy_balances` is a no-op: it returns `None`, adds
no constraint, and leaves the model's constraint set and degrees of
freedom unchanged. -/
theorem add_total_enthalpy_balances_noop (m : ModelState) :
    add_total_enthalpy_balances m = (m, none) ∧
    (add_total_enthalpy_balances m).1.constraints = m.constraints ∧
    degrees_of_freedom (add_total_enthalpy_balances m).1 = degrees_of_freedom m :=
  ⟨rfl, rfl, rfl⟩

/-- C9: after `apply_transformation` or `add_state_blocks`, `first_element`
is the minimum element of the length domain, for every flow-direction
value. -/
theorem first_element_invariance (c : Config) (s s' s₀ : Channel1D)
    (fd : FlowDirection) (hpe : Bool)
    (h : apply_transformation c s = .ok s')
    (h₀ : s₀.length_domain ≠ []) (hsort : s₀.length_domain.Sorted (· ≤ ·)) :
    (s'.first_element ∈ s'.length_domain ∧
      ∀ y ∈ s'.length_domain, s'.first_element ≤ y) ∧
    ((add_state_blocks fd hpe s₀).first_element ∈ s₀.length_domain ∧
      ∀ y ∈ s₀.length_domain, (add_state_blocks fd hpe s₀).first_element ≤ y) := by
  constructor
  · obtain ⟨m, hm, rfl⟩ := apply_transformation_ok h
    constructor
    · show listFirst (uniformGrid m) ∈ uniformGrid m
      exact listFirst_mem (uniformGrid_ne_nil m)
    · show ∀ y ∈ uniformGrid m, listFirst (uniformGrid m) ≤ y
      rw [listFirst_uniformGrid]
      exact uniformGrid_nonneg
  · cases hd : s₀.length_domain with
    | nil => exact absurd hd h₀
    | cons a l =>
        have hfe : (add_state_blocks fd hpe s₀).first_element = a := by
          simp [add_state_blocks, listFirst, hd]
        rw [hfe]
        constructor
        · exact List.mem_cons_self a l
        · intro y hy
          rcases List.mem_cons.mp hy with rfl | hmem
          · exact le_refl y
          · rw [hd] at hsort
            exact List.rel_of_sorted_cons hsort y hmem

/-- C10: `calculate_scaling_factors` accesses `self.pressure_dx`
unconditionally in both branches of the alias test: when `pressure_dx` was
never constructed it raises an attribute error, and when it exists the
call succeeds (the `pressure_change_total` pass being guarded by its own
attribute-existence check). -/
theorem pressure_dx_access_unguarded (s : ScaleState) :
    (s.pressure_dx = none →
      calculate_scaling_factors s = .error .attributeError) ∧
    (s.pressure_dx ≠ none →
      ∃ s', calculate_scaling_factors s = .ok s') := by
  constructor
  · exact calculate_scaling_factors_error
  · intro hne
    cases hp : s.pressure_dx with
    | none => exact absurd hp hne
    | some l =>
        unfold calculate_scaling_factors
        have hp' : (scale_pct_step (scale_area_step s)).pressure_dx = some l := by
          rw [(scale_pct_step_rest _).2.2, (scale_area_step_rest _).2.2, hp]
        rw [scale_pdx_step_some hp']
        exact ⟨_, rfl⟩

/-! ## Witness theorems -/

/-- Evaluation of the sample transformation: the one-element backward
finite-difference grid over `ch0` yields `ch1`. -/
theorem sample_transform_eq : apply_transformation sampleConfig ch0 = .ok ch1 := by
  have hgrid : uniformGrid 1 = [0, 1] := by
    unfold uniformGrid
    norm_num [List.range_succ]
  have hsup : super_apply_transformation sampleConfig = .ok [0, 1] := by
    unfold super_apply_transformation
    norm_num [sampleConfig, supported_pair, hgrid]
  unfold apply_transformation
  rw [hsup]
  norm_num [listFirst, ch0, ch1, List.filter]

/-- Witness for C1 at one time point and the two-point domain `{0, 1}`. -/
theorem add_isothermal_conditions_spec_witness :
    (add_isothermal_conditions [0] [0, 1]).length
      = ([(0 : ℚ)] : List ℚ).length * (([(0 : ℚ), 1] : List ℚ).length - 1) :=
  (add_isothermal_conditions_spec [0] [0, 1] (by decide) (by decide)).2

/-- Witness for C2 on the one-element backward finite-difference grid. -/
theorem apply_transformation_domain_complete_witness :
    (0 : ℚ) ∈ ch1.length_domain ∧ (1 : ℚ) ∈ ch1.length_domain ∧
    ch1.difference_elements = ch1.length_domain.erase ch1.first_element ∧
    ch1.nfe = ch1.difference_elements.length ∧
    ch1.nfe = ch1.length_domain.length - 1 :=
  apply_transformation_domain_complete sampleConfig ch0 ch1 sample_transform_eq

/-- Witness for C3: a second pass over `sc1` leaves area and
`pressure_change_total` factors as they are and re-derives the gradient
factors. -/
theorem calculate_scaling_factors_second_call_witness :
    sc1.area = some 100 ∧
    sc1.pressure_change_total = some [some (1 / 10000), some 2] ∧
    sc1.pressure_dx = some [some (1 / 100000), some (1 / 100000)] :=
  calculate_scaling_factors_second_call sc0 sc1 sc1 rfl rfl

/-- Witness for C4 (amended) at concrete configurations. -/
theorem config_rejection_behavior_witness :
    validate_config zeroFEConfig = .ok zeroFEConfig ∧
    apply_transformation badPairConfig ch0 = .error .configurationError ∧
    apply_transformation negFEConfig ch0 = .error .configurationError :=
  ⟨(config_rejection_behavior zeroFEConfig ch0).1,
   (config_rejection_behavior badPairConfig ch0).2.1 rfl,
   (config_rejection_behavior negFEConfig ch0).2.2 (by decide)⟩

/-- Witness for C5 in both alias regimes. -/
theorem pressure_dx_factor_by_alias_witness :
    sc1.pressure_dx = some [some (1 / 100000), some (1 / 100000)] ∧
    sc3.pressure_dx = some [some (100000 : ℚ)] :=
  ⟨(pressure_dx_factor_by_alias sc0 sc1 rfl).1 rfl,
   (pressure_dx_factor_by_alias sc2 sc3 rfl).2 rfl⟩

/-- Witness for C7: default factor is replaced by 100, a user factor of 5
is kept. -/
theorem area_factor_once_witness :
    sc1.area = some 100 ∧ sc3.area = some 5 :=
  ⟨(area_factor_once sc0 sc1 rfl).1 rfl,
   (area_factor_once sc2 sc3 rfl).2 (by decide)⟩

/-- Witness for C9 on a concrete transformed channel, backward flow. -/
theorem first_element_invariance_witness :
    (ch1.first_element ∈ ch1.length_domain) ∧
    ((add_state_blocks .backward true ch1).first_element ∈ ch1.length_domain) :=
  ⟨(first_element_invariance sampleConfig ch0 ch1 ch1 .backward true sample_transform_eq
      (by decide) (by decide)).1.1,
   (first_element_invariance sampleConfig ch0 ch1 ch1 .backward true sample_transform_eq
      (by decide) (by decide)).2.1⟩

/-- Witness for C10: a state without `pressure_dx` raises the attribute
error. -/
theorem pressure_dx_access_unguarded_witness :
    calculate_scaling_factors scNoPdx = .error .attributeError :=
  (pressure_dx_access_unguarded scNoPdx).1 rfl

end MembraneChannel1D
